import Mathlib

/-!
Verification of the intent/slot resolution engine, command dispatcher,
ledger tools and trace buffers of a small deterministic banking agent.
The definitions below are a shallow embedding of `agent_core.py`
(class `BankingAgent` and the fallback `Memory` class) and of
`banking_tools.py` (class `BankingTools`).  Python strings are modelled
as `String` / `List Char`, Python floats as `Rat`, Python `None` as
`Option.none`, and a raised Python exception as `Except.error`.
Display-only formatting (the `tabulate` pretty printer and the numeric
format specifiers of f-strings) is rendered by plain `toString`-based
helpers; the table layout is out of scope and no theorem depends on it.
-/

/-! ## Character and list utilities (Python string semantics) -/

/-- Python regex word character `\w` for the ASCII inputs handled here. -/
def isWordChar (c : Char) : Bool := c.isAlphanum || c == '_'

/-- Python whitespace as used by `str.strip` and regex `\s`. -/
def isPyWs (c : Char) : Bool :=
  c == ' ' || c == '\t' || c == '\n' || c == '\r' || c == '\x0b' || c == '\x0c'

/-- Python `str.strip()` on a character list. -/
def trimPy (l : List Char) : List Char :=
  ((l.dropWhile isPyWs).reverse.dropWhile isPyWs).reverse

/-- Is the first list an initial segment of the second? -/
def isPfx : List Char → List Char → Bool
  | [], _ => true
  | _ :: _, [] => false
  | p :: ps, c :: cs => p == c && isPfx ps cs

/-- Python substring containment `pat in s`. -/
def hasSub (pat : List Char) : List Char → Bool
  | [] => isPfx pat []
  | c :: cs => isPfx pat (c :: cs) || hasSub pat cs

/-- Python truthiness of an optional string (`None` and `""` are falsy). -/
def isTruthy : Option String → Bool
  | none => false
  | some s => !s.isEmpty

/-- Python `l[-n:]`: the last `n` elements of a list. -/
def lastN (n : Nat) (l : List String) : List String := l.drop (l.length - n)

/-! ## Number extraction: `re.findall(r"(?<!\w)(\d+(\.\d+)?)", u)` -/

def digitsToNat (ds : List Char) : Nat :=
  ds.foldl (fun a c => a * 10 + (c.toNat - 48)) 0

/-- Value of a fractional digit run `ds` read after a decimal point. -/
def fracVal (ds : List Char) : Rat :=
  (digitsToNat ds : Rat) / (10 : Rat) ^ ds.length

/-- Scanner for decimal numbers not preceded by a word character.
`prevW` records whether the previous character of the original string is
a word character (the `(?<!\w)` lookbehind).  The fuel argument is the
length of the scanned list, consumed one unit per step. -/
def scanNumsF : Nat → Bool → List Char → List Rat
  | 0, _, _ => []
  | _ + 1, _, [] => []
  | fuel + 1, prevW, c :: cs =>
    if c.isDigit && !prevW then
      let ds := List.takeWhile Char.isDigit (c :: cs)
      let rest := List.dropWhile Char.isDigit (c :: cs)
      match rest with
      | '.' :: r2 =>
        let fs := List.takeWhile Char.isDigit r2
        if fs.isEmpty then
          (digitsToNat ds : Rat) :: scanNumsF fuel true rest
        else
          ((digitsToNat ds : Rat) + fracVal fs) ::
            scanNumsF fuel true (List.dropWhile Char.isDigit r2)
      | _ => (digitsToNat ds : Rat) :: scanNumsF fuel true rest
    else
      scanNumsF fuel (isWordChar c) cs

/-- All decimal numbers of the utterance, in order of occurrence. -/
def extractNums (l : List Char) : List Rat := scanNumsF l.length false l

/-! ## Month extraction -/

def monthNamesLower : List String :=
  ["january", "february", "march", "april", "may", "june", "july",
   "august", "september", "october", "november", "december"]

/-- Leftmost month-name match of `re.search` over the lowered text;
at equal positions the alternation order of the pattern decides. -/
def findMonthAux : List Char → Option String
  | [] => none
  | c :: cs =>
    match monthNamesLower.find? (fun nm => isPfx nm.data (c :: cs)) with
    | some nm => some nm
    | none => findMonthAux cs

/-- Python `str.title()` on a single lowercase word. -/
def titleCase (s : String) : String :=
  match s.data with
  | [] => ""
  | c :: cs => String.mk (c.toUpper :: cs)

def findMonth (ul : List Char) : Option String := (findMonthAux ul).map titleCase

/-! ## Currency-token removal:
`re.sub(r"\b(rs\.|rupees|dollars?|inr)\b", "", ul)` -/

/-- The alternation branches in the order the regex engine tries them
(the greedy `s?` makes `dollars` precede `dollar`). -/
def curTokens : List (List Char) :=
  ["rs.".data, "rupees".data, "dollars".data, "dollar".data, "inr".data]

def lastIsWord (t : List Char) : Bool :=
  match t.getLast? with
  | some c => isWordChar c
  | none => false

/-- Trailing `\b` of the currency pattern: a word boundary must follow
the matched token. -/
def trailingBoundaryOk (t rest : List Char) : Bool :=
  if lastIsWord t then
    match rest with
    | [] => true
    | c :: _ => !isWordChar c
  else
    match rest with
    | [] => false
    | c :: _ => isWordChar c

/-- First alternation branch matching at this position, with the rest of
the input after it. -/
def tryCurTok (toks : List (List Char)) (s : List Char) : Option (List Char × List Char) :=
  toks.findSome? fun t =>
    if isPfx t s && trailingBoundaryOk t (s.drop t.length) then
      some (t, s.drop t.length)
    else none

/-- The leading `\b`: every token starts with a word character, so the
boundary holds exactly when the previous character is not one (`prevW`). -/
def rmCurF : Nat → Bool → List Char → List Char
  | 0, _, s => s
  | _ + 1, _, [] => []
  | fuel + 1, prevW, c :: cs =>
    if !prevW then
      match tryCurTok curTokens (c :: cs) with
      | some (t, rest) => rmCurF fuel (lastIsWord t) rest
      | none => c :: rmCurF fuel (isWordChar c) cs
    else
      c :: rmCurF fuel (isWordChar c) cs

def rmCurrency (ul : List Char) : List Char := rmCurF ul.length false ul

/-! ## Target extraction -/

/-- A character of the capture class `[A-Za-z0-9 _-]`. -/
def classCh (c : Char) : Bool :=
  c.isAlpha || c.isDigit || c == ' ' || c == '_' || c == '-'

/-- Match `\s+([A-Za-z][A-Za-z0-9 _-]{0,30})` at the head of `s`,
returning the capture. -/
def capAt (s : List Char) : Option (List Char) :=
  if (s.takeWhile isPyWs).isEmpty then none
  else
    match s.dropWhile isPyWs with
    | [] => none
    | c :: cs => if c.isAlpha then some (c :: (cs.takeWhile classCh).take 30) else none

/-- `re.search(kw + r"\s+([A-Za-z][A-Za-z0-9 _-]{0,30})", s)`:
the scan restarts one character later when the tail of the pattern fails. -/
def searchCap (kw : List Char) : List Char → Option (List Char)
  | [] => none
  | c :: cs =>
    if isPfx kw (c :: cs) then
      match capAt ((c :: cs).drop kw.length) with
      | some t => some t
      | none => searchCap kw cs
    else searchCap kw cs

/-- Consume a literal token followed by `\s+`. -/
def consumeTok (tok s : List Char) : Option (List Char) :=
  if isPfx tok s then
    let r := s.drop tok.length
    if (r.takeWhile isPyWs).isEmpty then none else some (r.dropWhile isPyWs)
  else none

/-- Match `([A-Za-z][A-Za-z0-9 _-]{0,30})` at the head of `s`. -/
def capClass : List Char → Option (List Char)
  | [] => none
  | c :: cs => if c.isAlpha then some (c :: (cs.takeWhile classCh).take 30) else none

/-- Greedy optional group `(?:tok\s+)?` with backtracking into `k`. -/
def optTok (tok r : List Char) (k : List Char → Option (List Char)) : Option (List Char) :=
  (match consumeTok tok r with
   | some r2 => k r2
   | none => none) <|> k r

/-- Tail of `pay\s+(?:bill\s+)?(?:to\s+)?([A-Za-z][A-Za-z0-9 _-]{0,30})`
after the literal `pay`. -/
def payCapAt (s : List Char) : Option (List Char) :=
  if (s.takeWhile isPyWs).isEmpty then none
  else
    let r := s.dropWhile isPyWs
    optTok "bill".data r (fun r2 => optTok "to".data r2 capClass)

def paySearch : List Char → Option (List Char)
  | [] => none
  | c :: cs =>
    (if isPfx "pay".data (c :: cs) then payCapAt ((c :: cs).drop 3) else none)
      <|> paySearch cs

/-- The recipient/biller/source capture of `parse_intent_slots`
(lines 147-165): the three patterns are tried in priority order and the
result is stripped. -/
def extractTarget (cl : List Char) : Option String :=
  if hasSub "from".data cl then
    (searchCap "from".data cl).map (fun t => String.mk (trimPy t))
  else if hasSub "to".data cl then
    (searchCap "to".data cl).map (fun t => String.mk (trimPy t))
  else if hasSub "pay".data cl && hasSub "bill".data cl then
    (paySearch cl).map (fun t => String.mk (trimPy t))
  else none

/-! ## Data model -/

/-- The fallback `Memory` class of `agent_core.py` (lines 25-46). -/
structure Memory where
  last_amount : Option Rat
  last_recipient : Option String
  last_biller : Option String
  last_n : Int
  last_month : Option String
  last_intent : Option String
  pending_transfer_to : Option String
  trace : List String
  trace_enabled : Bool
deriving DecidableEq

/-- `Memory.__init__`. -/
def mem0 : Memory :=
  { last_amount := none, last_recipient := none, last_biller := none,
    last_n := 3, last_month := none, last_intent := none,
    pending_transfer_to := none, trace := [], trace_enabled := false }

/-- `Memory.add_trace` (lines 42-44): append and keep the last 50. -/
def Memory.add_trace (m : Memory) (kind text : String) : Memory :=
  { m with trace := lastN 50 (m.trace ++ [kind ++ ": " ++ text]) }

/-- The slot dictionary.  A key that is absent from the Python dict is
observationally equal (through `dict.get`) to a key bound to `None`,
so both are modelled as `Option.none`. -/
structure Slots where
  n : Option Int
  amount : Option Rat
  target : Option String
  biller : Option String
  month : Option String
  category : Option String
deriving DecidableEq

/-! ## Intent classification (lines 183-204) -/

def helpPhrases : List (List Char) :=
  ["help".data, "options".data, "what can you do".data, "menu".data]

/-- First whitespace-separated word, `ul.split()[0]`; `none` when the
Python expression raises `IndexError`. -/
def firstWord (l : List Char) : Option (List Char) :=
  match l.dropWhile isPyWs with
  | [] => none
  | c :: cs => some (c :: cs.takeWhile (fun x => !isPyWs x))

def indexErrorMsg : String := "IndexError: list index out of range"

/-- The ordered intent cascade.  `hasNum` is `len(nums) > 0`, `month`
the extracted month.  The second disjunct of the `pay_bill` guard is
kept exactly as the source writes it. -/
def classify (ul : List Char) (hasNum : Bool) (month : Option String) :
    Except String String :=
  if helpPhrases.contains ul then .ok "help"
  else if ul == "trace".data then .ok "toggle_trace"
  else
    match firstWord ul with
    | none => .error indexErrorMsg
    | some w =>
      if w == "trace".data then .ok "toggle_trace"
      else if hasSub "balance".data ul || hasSub "how much money".data ul ||
          hasSub "how much do i have".data ul then .ok "check_balance"
      else if hasSub "fraud".data ul || hasSub "suspicious".data ul ||
          hasSub "detect".data ul then .ok "detect_fraud"
      else if hasSub "categorize".data ul || hasSub "category".data ul ||
          hasSub "spending".data ul then .ok "categorize_spending"
      else if hasSub "summary".data ul || hasSub "month".data ul ||
          hasSub "spending in".data ul || month.isSome then .ok "monthly_summary"
      else if hasSub "pay".data ul && (hasSub "bill".data ul || hasSub "pay".data ul) then
        .ok "pay_bill"
      else if (hasSub "deposit".data ul || hasSub "add".data ul) &&
          (hasSub "from".data ul || hasNum) then .ok "deposit_money"
      else if hasSub "transfer".data ul || hasSub "send".data ul ||
          hasSub "give".data ul then .ok "transfer_money"
      else if hasSub "transaction".data ul || hasSub "transactions".data ul ||
          hasSub "last".data ul || hasSub "recent".data ul ||
          hasSub "spent".data ul || ul == "show".data then .ok "get_last_transactions"
      else .ok "fallback"

/-! ## Slot building and refinement (lines 206-249) -/

/-- `re.search(r"last\s+(\w+)", ul)`. -/
def searchLastWord : List Char → Option (List Char)
  | [] => none
  | c :: cs =>
    (if isPfx "last".data (c :: cs) then
       let r := (c :: cs).drop 4
       if (r.takeWhile isPyWs).isEmpty then none
       else
         match r.dropWhile isPyWs with
         | [] => none
         | d :: ds => if isWordChar d then some (d :: ds.takeWhile isWordChar) else none
     else none)
      <|> searchLastWord cs

def word2num (w : List Char) : Option Int :=
  if w == "one".data then some 1
  else if w == "two".data then some 2
  else if w == "three".data then some 3
  else if w == "four".data then some 4
  else if w == "five".data then some 5
  else none

def categoriesList : List String :=
  ["groceries", "shopping", "bills", "food", "entertainment", "petrol",
   "travel", "transfer", "income"]

/-- Slot construction, intent-specific refinement and memory
default-filling of `parse_intent_slots` (lines 206-249). -/
def buildSlots (intent : String) (nums : List Rat) (ints : List Int)
    (target month category : Option String) (ul cl : List Char) (m : Memory) :
    Slots :=
  let biller := target
  let target1 : Option String :=
    if intent == "deposit_money" then
      if hasSub "from".data cl then
        match searchCap "from".data cl with
        | some t => some (String.mk (trimPy t))
        | none => if !isTruthy target then some "unspecified source" else target
      else target
    else target
  let nR : Option Int :=
    if intent == "get_last_transactions" then
      if !ints.isEmpty then ints.head?
      else
        match searchLastWord ul with
        | some w =>
          if !w.isEmpty && w.all Char.isDigit then some (digitsToNat w : Int)
          else word2num w
        | none => none
    else none
  let nR2 : Option Int :=
    if intent == "get_last_transactions" then
      match nR with
      | some k => if k == 0 then some m.last_n else some k
      | none => some m.last_n
    else none
  let nF : Option Int :=
    match nR2 with
    | none => some m.last_n
    | some k => some k
  let amountF : Option Rat :=
    match nums.head? with
    | none => m.last_amount
    | some a => some a
  let targetF : Option String :=
    match target1 with
    | none => if intent == "deposit_money" then none else m.last_recipient
    | some t => some t
  { n := nF, amount := amountF, target := targetF, biller := biller,
    month := month, category := category }

/-! ## The resolver: `parse_intent_slots` (lines 125-252) -/

/-- Normalised lowercase text `ul = user.strip().lower()`. -/
def ulOf (u : String) : List Char := (trimPy u.data).map Char.toLower

/-- The numbers extracted from the stripped original-case utterance. -/
def numsOf (u : String) : List Rat := extractNums (trimPy u.data)

/-- The memory mutation performed by `parse_intent_slots`
(lines 136-137): the trace is cut to its last 20 entries when it holds
more than 50. -/
def truncMem (m : Memory) : Memory :=
  if 50 < m.trace.length then { m with trace := lastN 20 m.trace } else m

/-- Intent classification and slot extraction.  The result is the pair
returned by the Python method, or `Except.error` when it raises. -/
def parseCore (u : String) (m : Memory) : Except String (String × Slots) :=
  let ul := ulOf u
  let nums := numsOf u
  let ints := (nums.filter (fun q => q.den == 1)).map Rat.num
  let month := findMonth ul
  let cl := rmCurrency ul
  let target := extractTarget cl
  let category := categoriesList.find? (fun c => hasSub c.data ul)
  if !nums.isEmpty && isTruthy m.pending_transfer_to then
    .ok ("transfer_money",
      { n := none, amount := nums.head?, target := m.pending_transfer_to,
        biller := none, month := none, category := none })
  else
    (classify ul (!nums.isEmpty) month).map
      (fun intent => (intent, buildSlots intent nums ints target month category ul cl m))

/-- `BankingAgent.parse_intent_slots`: the returned pair (or raised
exception) together with the memory as it stands afterwards. -/
def parse_intent_slots (u : String) (m : Memory) :
    Except String (String × Slots) × Memory :=
  let m1 := truncMem m
  (parseCore u m1, m1)

/-! ## Ledger tools: `banking_tools.py` -/

/-- One row of the transactions table.  The timestamp written by
`pd.Timestamp.now()` is modelled as a `(year, month)` pair supplied by
the caller; no claim inspects finer-grained time. -/
structure Txn where
  date : Nat × Nat
  description : String
  amount : Rat
  category : String
deriving DecidableEq

abbrev Ledger := List Txn

/-- `self.transactions["amount"].sum()`. -/
def ledgerBalance (l : Ledger) : Rat := (l.map Txn.amount).sum

/-- `BankingTools.check_balance`. -/
def check_balance (l : Ledger) : String :=
  "Your current balance is ₹" ++ toString (ledgerBalance l)

/-- Row rendering used where the source calls `tabulate`; the pretty
table layout is display-only and abstracted to a plain rendering. -/
def renderRow (t : Txn) : String :=
  toString t.date.1 ++ "-" ++ toString t.date.2 ++ " | " ++ t.description ++
    " | " ++ toString t.amount ++ " | " ++ t.category

def renderTable (l : Ledger) : String :=
  String.intercalate "\n" (l.map renderRow)

/-- `DataFrame.tail(n)`: the last `n` rows, all but the first `-n` rows
when `n` is negative. -/
def tailRows (n : Int) (l : Ledger) : Ledger :=
  if 0 ≤ n then l.drop (l.length - n.toNat) else l.drop (-n).toNat

/-- `BankingTools.last_transactions`. -/
def last_transactions (n : Int) (l : Ledger) : String := renderTable (tailRows n l)

def insufficientMsg (b : Rat) : String :=
  "Insufficient funds. Current balance: ₹" ++ toString b

/-- `BankingTools.transfer` (lines 39-56). -/
def transfer (now : Nat × Nat) (amount : Option Rat) (recipient : Option String)
    (l : Ledger) : String × Ledger :=
  match amount, recipient with
  | some a, some r =>
    let bal := ledgerBalance l
    if bal < a then (insufficientMsg bal, l)
    else
      let l2 := l ++ [{ date := now, description := "Transfer to " ++ r,
                        amount := -a, category := "Transfer" }]
      ("Transferred ₹" ++ toString a ++ " to " ++ r ++ ". New balance: ₹" ++
         toString (ledgerBalance l2), l2)
  | _, _ => ("Incomplete transfer details.", l)

/-- `BankingTools.deposit` (lines 58-71). -/
def deposit (now : Nat × Nat) (amount : Option Rat) (source : Option String)
    (l : Ledger) : String × Ledger :=
  match amount, source with
  | some a, some s =>
    let l2 := l ++ [{ date := now, description := "Deposit from " ++ s,
                      amount := a, category := "Income" }]
    ("Deposited ₹" ++ toString a ++ " from " ++ s ++ ". New balance: ₹" ++
       toString (ledgerBalance l2), l2)
  | _, _ => ("Incomplete deposit details.", l)

/-- `BankingTools.pay_bill` (lines 73-90). -/
def pay_bill (now : Nat × Nat) (amount : Option Rat) (biller : Option String)
    (l : Ledger) : String × Ledger :=
  match amount, biller with
  | some a, some b =>
    let bal := ledgerBalance l
    if bal < a then (insufficientMsg bal, l)
    else
      let l2 := l ++ [{ date := now, description := "Bill payment to " ++ b,
                        amount := -a, category := "Bills" }]
      ("Paid ₹" ++ toString a ++ " to " ++ b ++ ". New balance: ₹" ++
         toString (ledgerBalance l2), l2)
  | _, _ => ("Incomplete bill payment details.", l)

/-- `BankingTools.detect_fraud`. -/
def detect_fraud (l : Ledger) : String :=
  let large := l.filter (fun t =>
    decide ((20000 : Rat) < |t.amount|) && t.category != "Income")
  if large.isEmpty then "✅ No suspicious transactions detected."
  else "⚠️ Suspicious transactions found:\n" ++ renderTable large

def monthMapLookup (s : List Char) : Option Nat :=
  if s == "january".data then some 1
  else if s == "february".data then some 2
  else if s == "march".data then some 3
  else if s == "april".data then some 4
  else if s == "may".data then some 5
  else if s == "june".data then some 6
  else if s == "july".data then some 7
  else if s == "august".data then some 8
  else if s == "september".data then some 9
  else if s == "october".data then some 10
  else if s == "november".data then some 11
  else if s == "december".data then some 12
  else none

/-- The `pd.to_datetime(month)` fallback of `monthly_summary`, for the
`YYYY-MM` shape the docstring of the reply names; any other
unrecognised text is a parse failure. -/
def parseYM (s : List Char) : Option (Nat × Nat) :=
  match s with
  | [a, b, c, d, '-', e, f] =>
    if [a, b, c, d, e, f].all Char.isDigit then
      some (digitsToNat [a, b, c, d], digitsToNat [e, f])
    else none
  | _ => none

def monthNameOf (n : Nat) : String :=
  match n with
  | 1 => "January" | 2 => "February" | 3 => "March" | 4 => "April"
  | 5 => "May" | 6 => "June" | 7 => "July" | 8 => "August"
  | 9 => "September" | 10 => "October" | 11 => "November" | 12 => "December"
  | _ => "Unknown"

def sortedStrs (l : List String) : List String :=
  l.mergeSort (fun a b => decide (a ≤ b))

/-- `groupby("category")["amount"].sum()` over a set of rows: the
categories in sorted order with their summed amounts. -/
def groupByCat (rows : Ledger) : List (String × Rat) :=
  (sortedStrs ((rows.map Txn.category).eraseDups)).map (fun c =>
    (c, ((rows.filter (fun t => t.category == c)).map Txn.amount).sum))

def catLine (c : String) (a : Rat) : String :=
  "  • " ++ c ++ " ₹" ++ toString a

/-- `BankingTools.monthly_summary`: the first, reachable implementation
(lines 109-181); the duplicated blocks after its `return` are dead code. -/
def monthly_summary (month : Option String) (now : Nat × Nat) (l : Ledger) : String :=
  let ymE : Except String (Nat × Nat) :=
    match month with
    | none => .ok now
    | some ms =>
      match monthMapLookup (trimPy (ms.data.map Char.toLower)) with
      | some mo => .ok (2025, mo)
      | none =>
        match parseYM ms.data with
        | some ym => .ok ym
        | none => .error "Please specify a valid month (e.g., 'August' or '2025-08')"
  match ymE with
  | .error e => e
  | .ok (y, mo) =>
    let mt := l.filter (fun t => t.date.1 == y && t.date.2 == mo)
    let header := "\n📊 Monthly Summary for " ++ monthNameOf mo ++ " " ++ toString y
    if mt.isEmpty then
      String.intercalate "\n" [header, "\n❌ No transactions found for this period."]
    else
      let incomeTx := mt.filter (fun t => decide ((0 : Rat) < t.amount))
      let expenseTx := mt.filter (fun t => decide (t.amount < (0 : Rat)))
      let ti := (incomeTx.map Txn.amount).sum
      let te := |(expenseTx.map Txn.amount).sum|
      let base := [header,
        "\n💰 Total Income: ₹" ++ toString ti,
        "💸 Total Expenses: ₹" ++ toString te,
        "📈 Net Change: ₹" ++ toString (ti - te)]
      let expLines :=
        if expenseTx.isEmpty then []
        else "\n🔍 Expenses by Category:" ::
          (groupByCat expenseTx).map (fun p => catLine p.1 |p.2|)
      let incLines :=
        if incomeTx.isEmpty then []
        else "\n💹 Income by Category:" ::
          (groupByCat incomeTx).map (fun p => catLine p.1 p.2)
      String.intercalate "\n"
        (base ++ expLines ++ incLines ++
         ["\n🔄 Number of Transactions: " ++ toString mt.length])

/-- `Series.round(2)` on a summed amount (display-only rounding). -/
def round2 (q : Rat) : Rat := (⌊q * 100 + 1 / 2⌋ : Rat) / 100

/-- `BankingTools.categorize_spending`. -/
def categorize_spending (l : Ledger) : String :=
  let grouped := (groupByCat l).map (fun p => (p.1, round2 p.2))
  let income := grouped.filter (fun p => decide ((0 : Rat) < p.2))
  let expenses := grouped.filter (fun p => decide (p.2 < (0 : Rat)))
  let expLines :=
    if expenses.isEmpty then []
    else "💸 Expenses:" :: expenses.map (fun p => catLine p.1 |p.2|)
  let incLines :=
    if income.isEmpty then []
    else "\n💰 Income:" :: income.map (fun p => catLine p.1 p.2)
  let te := |(expenses.map Prod.snd).sum|
  let ti := (income.map Prod.snd).sum
  String.intercalate "\n"
    (["📊 Spending Analysis:\n"] ++ expLines ++ incLines ++
     ["\n📈 Total Summary:",
      "  • Total Income:   ₹" ++ toString ti,
      "  • Total Expenses: ₹" ++ toString te,
      "  • Net Balance:    ₹" ++ toString (ti - te)])

/-! ## Dispatcher state and trace recorder -/

/-- The dispatcher-level state of `BankingAgent` relevant to `act`:
its trace toggle and buffer, the shared `Memory`, and the
`BankingTools` transactions table. -/
structure AgentSt where
  trace_enabled : Bool
  trace : List String
  memory : Memory
  ledger : Ledger
deriving DecidableEq

/-- The emoji marker map of `_add_trace`. -/
def emojiFor (kind : String) : String :=
  if kind == "Start" then "🎯"
  else if kind == "Intent" then "🔎"
  else if kind == "Slots" then "📋"
  else if kind == "Thought" then "🤔"
  else if kind == "Action" then "⚡"
  else if kind == "Error" then "❌"
  else if kind == "Control" then "⚙️"
  else if kind == "Success" then "✅"
  else if kind == "Parse" then "🔍"
  else if kind == "Tool" then "🛠️"
  else if kind == "Memory" then "💭"
  else "•"

def traceLine (kind text : String) : String :=
  emojiFor kind ++ " " ++ kind ++ ": " ++ text

/-- `BankingAgent._add_trace` (lines 82-105): a no-op while disabled,
otherwise append and keep the last 20 entries. -/
def addTraceA (st : AgentSt) (kind text : String) : AgentSt :=
  if st.trace_enabled then
    { st with trace := lastN 20 (st.trace ++ [traceLine kind text]) }
  else st

/-- `BankingAgent.toggle_trace` (lines 113-120). -/
def toggle_trace (st : AgentSt) : String × AgentSt :=
  let enabled := !st.trace_enabled
  let msg := "Reasoning trace " ++ (if enabled then "enabled" else "disabled") ++ " ✅"
  let st1 := { st with trace_enabled := enabled, trace := [] }
  let st2 := if enabled then addTraceA st1 "Control" "Trace system initialized ✨" else st1
  (msg, st2)

/-- The capabilities listing returned for the `help` intent, in the
insertion order of the `capabilities` dict. -/
def capabilitiesText : String :=
  "Capabilities:\n" ++ String.intercalate "\n"
    ["- balance: Check your current account balance",
     "- transactions: Show your last N transactions (e.g., \x27show last 3 transactions\x27)",
     "- transfer: Transfer money to someone (e.g., \x27transfer 500 to Alice\x27)",
     "- deposit: Add money to your account (e.g., \x27deposit 500 from salary\x27)",
     "- pay_bill: Pay a bill (e.g., \x27pay 1200 to electricity\x27)",
     "- summary: Show monthly summary (e.g., \x27summary for July\x27)",
     "- fraud: Detect suspicious transactions",
     "- categorize: Show spending by category",
     "- help: List capabilities",
     "- trace: Toggle internal reasoning trace"]

/-! ## The dispatcher: `BankingAgent.act` (lines 257-369) -/

/-- Python `a or b` where `a` is an optional integer slot
(`None` and `0` are falsy). -/
def orFalsyI : Option Int → Int → Int
  | some k, b => if k == 0 then b else k
  | none, b => b

/-- Python `a or b` on optional strings (`None` and `""` are falsy). -/
def orFalsyS : Option String → Option String → Option String
  | some s, b => if s.isEmpty then b else some s
  | none, b => b

/-- Display rendering of the slots dict for the trace text
(the Python `repr` of values is abstracted). -/
def optRepr : Option String → String
  | none => "None"
  | some s => "\x27" ++ s ++ "\x27"

def slotsText (s : Slots) : String :=
  "\x7b\x27n\x27: " ++ (match s.n with | none => "None" | some k => toString k) ++
  ", \x27amount\x27: " ++ (match s.amount with | none => "None" | some a => toString a) ++
  ", \x27target\x27: " ++ optRepr s.target ++
  ", \x27biller\x27: " ++ optRepr s.biller ++
  ", \x27month\x27: " ++ optRepr s.month ++
  ", \x27category\x27: " ++ optRepr s.category ++ "\x7d"

/-- A collaborator invocation inside the `try` block.  `exc` is the
exception oracle: `some e` means this call raises `e`, `none` means it
runs its `banking_tools.py` semantics `f` over the transactions table. -/
def toolCall (exc : Option String) (st : AgentSt) (f : Ledger → String × Ledger) :
    Except String String × AgentSt :=
  match exc with
  | some e => (.error e, st)
  | none =>
    let (r, l2) := f st.ledger
    (.ok r, { st with ledger := l2 })

/-- The body of the `try` block of `act`: the per-intent dispatch,
with the state as it stands when the block returns or raises. -/
def actBody (exc : Option String) (now : Nat × Nat) (intent : String)
    (slots : Slots) (st : AgentSt) : Except String String × AgentSt :=
  if intent == "help" then (.ok capabilitiesText, st)
  else if intent == "toggle_trace" then
    let (msg, st2) := toggle_trace st
    (.ok msg, st2)
  else if intent == "check_balance" then
    toolCall exc st (fun l => (check_balance l, l))
  else if intent == "get_last_transactions" then
    let n : Int := orFalsyI slots.n st.memory.last_n
    let st2 := { st with memory := { st.memory with last_n := n } }
    toolCall exc st2 (fun l => (last_transactions n l, l))
  else if intent == "deposit_money" then
    match slots.amount with
    | none =>
      (.ok "Please specify the amount to deposit, e.g., \x27deposit 500 from salary\x27.", st)
    | some amt =>
      let source := match slots.target with
        | none => "unspecified source"
        | some s => s
      let st2 := { st with memory := { st.memory with last_amount := some amt } }
      toolCall exc st2 (fun l => deposit now (some amt) (some source) l)
  else if intent == "transfer_money" then
    match slots.target, slots.amount with
    | some tgt, none =>
      let st2 := { st with memory := { st.memory with pending_transfer_to := some tgt } }
      (.ok "Please specify the amount to transfer.", st2)
    | none, _ =>
      (.ok "Please specify an amount and a recipient, e.g., \x27transfer 500 to Alice\x27.", st)
    | some tgt, some amt =>
      let st2 := { st with memory :=
        { st.memory with last_amount := some amt, last_recipient := some tgt,
                         pending_transfer_to := none } }
      toolCall exc st2 (fun l => transfer now (some amt) (some tgt) l)
  else if intent == "pay_bill" then
    match slots.amount with
    | none =>
      (.ok "Please specify an amount to pay, e.g., \x27pay 1200 to electricity\x27.", st)
    | some amt =>
      match orFalsyS slots.target slots.biller with
      | none =>
        (.ok "Please specify who to pay the bill to, e.g., \x27pay 1200 to electricity\x27.", st)
      | some biller =>
        let st2 := { st with memory :=
          { st.memory with last_amount := some amt, last_biller := some biller } }
        toolCall exc st2 (fun l => pay_bill now (some amt) (some biller) l)
  else if intent == "monthly_summary" then
    let month := match orFalsyS slots.month st.memory.last_month with
      | none => "August"
      | some mth => if mth.isEmpty then "August" else mth
    let st2 := { st with memory := { st.memory with last_month := some month } }
    toolCall exc st2 (fun l => (monthly_summary (some month) now l, l))
  else if intent == "detect_fraud" then
    toolCall exc st (fun l => (detect_fraud l, l))
  else if intent == "categorize_spending" then
    toolCall exc st (fun l => (categorize_spending l, l))
  else
    let st2 := addTraceA st "Thought" "No intent matched"
    (.ok "I\x27m not sure how to handle that. Try asking about balance, transactions, transfers, or bills.", st2)

/-- The two trace records at the top of `act` (lines 258-260); the
`if slots:` guard is always true because the slot dict is non-empty. -/
def actPre (intent : String) (slots : Slots) (st : AgentSt) : AgentSt :=
  addTraceA (addTraceA st "Action" ("Processing command: " ++ intent))
    "Thought" ("Parameters detected: " ++ slotsText slots)

/-- `BankingAgent.act`: the dispatch wrapped in `try/except`, so a
raised collaborator exception becomes an error reply (lines 367-369). -/
def act (exc : Option String) (now : Nat × Nat) (intent : String)
    (slots : Slots) (st : AgentSt) : String × AgentSt :=
  match actBody exc now intent slots (actPre intent slots st) with
  | (.ok r, st1) => (r, st1)
  | (.error e, st1) => ("Sorry, there was an error: " ++ e, addTraceA st1 "Error" e)

/-! ## Helper lemmas -/

theorem lastN_length_le (n : Nat) (l : List String) : (lastN n l).length ≤ n := by
  simp [lastN]; omega

@[simp] theorem truncMem_last_amount (m : Memory) :
    (truncMem m).last_amount = m.last_amount := by
  unfold truncMem; split <;> rfl

@[simp] theorem truncMem_last_recipient (m : Memory) :
    (truncMem m).last_recipient = m.last_recipient := by
  unfold truncMem; split <;> rfl

@[simp] theorem truncMem_last_n (m : Memory) : (truncMem m).last_n = m.last_n := by
  unfold truncMem; split <;> rfl

@[simp] theorem truncMem_pending (m : Memory) :
    (truncMem m).pending_transfer_to = m.pending_transfer_to := by
  unfold truncMem; split <;> rfl

@[simp] theorem addTraceA_memory (st : AgentSt) (k t : String) :
    (addTraceA st k t).memory = st.memory := by
  unfold addTraceA; split <;> rfl

@[simp] theorem addTraceA_ledger (st : AgentSt) (k t : String) :
    (addTraceA st k t).ledger = st.ledger := by
  unfold addTraceA; split <;> rfl

@[simp] theorem actPre_memory (i : String) (s : Slots) (st : AgentSt) :
    (actPre i s st).memory = st.memory := by
  unfold actPre; simp

@[simp] theorem actPre_ledger (i : String) (s : Slots) (st : AgentSt) :
    (actPre i s st).ledger = st.ledger := by
  unfold actPre; simp

@[simp] theorem toolCall_memory (exc : Option String) (st : AgentSt)
    (f : Ledger → String × Ledger) : ((toolCall exc st f).2).memory = st.memory := by
  unfold toolCall; cases exc <;> simp

@[simp] theorem toggle_trace_memory (st : AgentSt) :
    ((toggle_trace st).2).memory = st.memory := by
  unfold toggle_trace; simp only []
  split
  · simp [addTraceA]
    split <;> rfl
  · rfl

/-! ## Concrete fixtures for witnesses and counterexamples -/

def l5000 : Ledger :=
  [{ date := (2025, 8), description := "Opening Balance", amount := 5000,
     category := "Income" }]

def slots0 : Slots :=
  { n := none, amount := none, target := none, biller := none,
    month := none, category := none }

def st0 : AgentSt :=
  { trace_enabled := false, trace := [], memory := mem0, ledger := l5000 }

/-! ## C3: insufficient funds leaves the ledger unchanged -/

/-- C3: for every ledger with balance `B`, every amount `a > B` and every
non-null recipient/biller, `transfer` and `pay_bill` return the
insufficient-funds message and append nothing to the transaction table. -/
theorem c3_insufficient_funds_no_append (now : Nat × Nat) (l : Ledger) (a : Rat)
    (r b : String) (h : ledgerBalance l < a) :
    transfer now (some a) (some r) l = (insufficientMsg (ledgerBalance l), l) ∧
    pay_bill now (some a) (some b) l = (insufficientMsg (ledgerBalance l), l) := by
  constructor
  · unfold transfer
    simp only []
    rw [if_pos h]
  · unfold pay_bill
    simp only []
    rw [if_pos h]

/-- C3 witness: with balance 5000, a transfer and a bill payment of
100000 both fail without mutating the table. -/
theorem c3_witness :
    transfer (2025, 9) (some 100000) (some "Bob") l5000 =
      (insufficientMsg (ledgerBalance l5000), l5000) ∧
    pay_bill (2025, 9) (some 100000) (some "electricity") l5000 =
      (insufficientMsg (ledgerBalance l5000), l5000) :=
  c3_insufficient_funds_no_append (2025, 9) l5000 100000 "Bob" "electricity" (by
    norm_num [ledgerBalance, l5000])

/-! ## C6: the memory effect of the resolver -/

/-- C6 (amended): `parse_intent_slots` leaves every `Memory` field
unchanged except the trace, and leaves the whole record unchanged
whenever the trace holds at most 50 entries; a trace longer than 50
entries is cut to its last 20 (lines 136-137). -/
theorem c6_resolver_memory_effect (u : String) (m : Memory) :
    ((parse_intent_slots u m).2.last_amount = m.last_amount ∧
     (parse_intent_slots u m).2.last_recipient = m.last_recipient ∧
     (parse_intent_slots u m).2.last_biller = m.last_biller ∧
     (parse_intent_slots u m).2.last_n = m.last_n ∧
     (parse_intent_slots u m).2.last_month = m.last_month ∧
     (parse_intent_slots u m).2.last_intent = m.last_intent ∧
     (parse_intent_slots u m).2.pending_transfer_to = m.pending_transfer_to ∧
     (parse_intent_slots u m).2.trace_enabled = m.trace_enabled) ∧
    (m.trace.length ≤ 50 → (parse_intent_slots u m).2 = m) ∧
    (50 < m.trace.length → (parse_intent_slots u m).2.trace = lastN 20 m.trace) := by
  have h2 : (parse_intent_slots u m).2 = truncMem m := rfl
  refine ⟨?_, ?_, ?_⟩
  · rw [h2]; unfold truncMem; split <;> simp
  · intro h; rw [h2]; unfold truncMem; rw [if_neg (by omega)]
  · intro h; rw [h2]; unfold truncMem; rw [if_pos h]

/-- C6 witness: on a memory whose trace is within the cap, the resolver
returns the memory unchanged. -/
theorem c6_witness : (parse_intent_slots "hi" mem0).2 = mem0 :=
  (c6_resolver_memory_effect "hi" mem0).2.1 (by decide)

def m51 : Memory := { mem0 with trace := List.replicate 51 "Thought: t" }

/-- C6 counterexample: on a memory whose trace holds 51 entries, the
resolver truncates the trace to 20 entries, so the memory observed
afterwards differs from the memory passed in. -/
theorem c6_counterexample :
    m51.trace.length = 51 ∧ (parse_intent_slots "balance" m51).2.trace.length = 20 := by
  constructor
  · decide
  · decide

/-! ## C9: both trace buffers respect their caps -/

/-- C9: after any sequence of recorded entries, the dispatcher-level
trace buffer holds at most 20 entries and the memory-level buffer at
most 50, provided each started within its cap. -/
theorem c9_trace_caps (entries : List (String × String)) (st : AgentSt) (m : Memory)
    (h1 : st.trace.length ≤ 20) (h2 : m.trace.length ≤ 50) :
    (entries.foldl (fun s e => addTraceA s e.1 e.2) st).trace.length ≤ 20 ∧
    (entries.foldl (fun mm e => Memory.add_trace mm e.1 e.2) m).trace.length ≤ 50 := by
  induction entries generalizing st m with
  | nil => exact ⟨h1, h2⟩
  | cons e es ih =>
    simp only [List.foldl_cons]
    refine ih _ _ ?_ ?_
    · unfold addTraceA; split
      · simpa using lastN_length_le 20 _
      · exact h1
    · unfold Memory.add_trace
      simpa using lastN_length_le 50 _

def stOn : AgentSt := { st0 with trace_enabled := true }

/-- C9 witness: two recorded entries keep both buffers within caps. -/
theorem c9_witness :
    ([("Action", "a"), ("Thought", "b")].foldl
        (fun s e => addTraceA s e.1 e.2) stOn).trace.length ≤ 20 ∧
    ([("Action", "a"), ("Thought", "b")].foldl
        (fun mm e => Memory.add_trace mm e.1 e.2) mem0).trace.length ≤ 50 :=
  c9_trace_caps [("Action", "a"), ("Thought", "b")] stOn mem0 (by decide) (by decide)

/-! ## C4: the dispatcher catches collaborator exceptions -/

/-- C4: `act` is a total function into reply strings, and whenever the
dispatched body raises an exception `e`, the reply returned to the
caller is the converted error reply, never a propagated exception. -/
theorem c4_act_catches (exc : Option String) (now : Nat × Nat) (intent : String)
    (slots : Slots) (st : AgentSt) (e : String)
    (h : (actBody exc now intent slots (actPre intent slots st)).1 = Except.error e) :
    (act exc now intent slots st).1 = "Sorry, there was an error: " ++ e := by
  unfold act
  rcases hb : actBody exc now intent slots (actPre intent slots st) with ⟨r, st1⟩
  rw [hb] at h
  cases r with
  | ok v => exact absurd h (by simp)
  | error e2 =>
    have he : e2 = e := by simpa using h
    subst he
    rfl

/-- C4 witness: a collaborator that raises `boom` during a balance check
yields the converted error reply. -/
theorem c4_witness :
    (actBody (some "boom") (2025, 9) "check_balance" slots0
        (actPre "check_balance" slots0 st0)).1 = Except.error "boom" ∧
    (act (some "boom") (2025, 9) "check_balance" slots0 st0).1 =
      "Sorry, there was an error: boom" :=
  ⟨rfl, c4_act_catches (some "boom") (2025, 9) "check_balance" slots0 st0 "boom" rfl⟩

/-! ## C2: transfer with target but no amount sets the pending state -/

/-- C2: dispatching `transfer_money` with a non-null target and a null
amount records the target in `pending_transfer_to`, returns the
amount prompt, and appends nothing to the ledger. -/
theorem c2_pending_prompt (exc : Option String) (now : Nat × Nat) (slots : Slots)
    (st : AgentSt) (t : String) (ha : slots.amount = none) (ht : slots.target = some t) :
    (act exc now "transfer_money" slots st).1 = "Please specify the amount to transfer." ∧
    ((act exc now "transfer_money" slots st).2).memory.pending_transfer_to = some t ∧
    ((act exc now "transfer_money" slots st).2).ledger = st.ledger := by
  unfold act actBody
  rw [ha, ht]
  simp

/-- C2 witness: concrete dispatch with target `Bob` and no amount. -/
theorem c2_witness :
    (act none (2025, 9) "transfer_money" { slots0 with target := some "Bob" } st0).1 =
      "Please specify the amount to transfer." ∧
    ((act none (2025, 9) "transfer_money" { slots0 with target := some "Bob" } st0).2).memory.pending_transfer_to = some "Bob" ∧
    ((act none (2025, 9) "transfer_money" { slots0 with target := some "Bob" } st0).2).ledger = st0.ledger :=
  c2_pending_prompt none (2025, 9) { slots0 with target := some "Bob" } st0 "Bob" rfl rfl

/-! ## C7: lifecycle of `pending_transfer_to` under dispatch -/

/-- Every `act` branch other than `transfer_money` leaves
`pending_transfer_to` untouched. -/
theorem actBody_pending_preserved (exc : Option String) (now : Nat × Nat)
    (intent : String) (slots : Slots) (st : AgentSt)
    (h : intent ≠ "transfer_money") :
    ((actBody exc now intent slots st).2).memory.pending_transfer_to =
      st.memory.pending_transfer_to := by
  have htm : (intent == "transfer_money") = false := by simpa using h
  unfold actBody
  simp only [htm, Bool.false_eq_true, if_false]
  repeat' split
  all_goals simp

/-- The completed-transfer branch of `act` clears `pending_transfer_to`
before invoking the ledger, whether or not the ledger call succeeds. -/
theorem actBody_transfer_clears_pending (exc : Option String) (now : Nat × Nat)
    (slots : Slots) (st : AgentSt) (a : Rat) (t : String)
    (ha : slots.amount = some a) (ht : slots.target = some t) :
    ((actBody exc now "transfer_money" slots st).2).memory.pending_transfer_to =
      none := by
  unfold actBody
  cases exc <;> simp [ha, ht, toolCall]

/-- C7 (amended): `pending_transfer_to` is cleared exactly by a
`transfer_money` dispatch that has both amount and target (even when
the ledger operation then fails or raises); dispatching any other
intent leaves the pending state unchanged rather than clearing it. -/
theorem c7_pending_lifecycle :
    (∀ (exc : Option String) (now : Nat × Nat) (intent : String) (slots : Slots)
        (st : AgentSt), intent ≠ "transfer_money" →
        ((act exc now intent slots st).2).memory.pending_transfer_to =
          st.memory.pending_transfer_to) ∧
    (∀ (exc : Option String) (now : Nat × Nat) (slots : Slots) (st : AgentSt)
        (a : Rat) (t : String), slots.amount = some a → slots.target = some t →
        ((act exc now "transfer_money" slots st).2).memory.pending_transfer_to =
          none) := by
  constructor
  · intro exc now intent slots st h
    unfold act
    rcases hb : actBody exc now intent slots (actPre intent slots st) with ⟨r, st1⟩
    have hp := actBody_pending_preserved exc now intent slots (actPre intent slots st) h
    rw [hb] at hp
    cases r
    · simpa using hp
    · simpa using hp
  · intro exc now slots st a t ha ht
    unfold act
    rcases hb : actBody exc now "transfer_money" slots
        (actPre "transfer_money" slots st) with ⟨r, st1⟩
    have hp := actBody_transfer_clears_pending exc now slots
        (actPre "transfer_money" slots st) a t ha ht
    rw [hb] at hp
    cases r
    · simpa using hp
    · simpa using hp

def stAlice : AgentSt :=
  { st0 with memory := { mem0 with pending_transfer_to := some "Alice" } }

/-- C7 counterexample: dispatching the unrelated intent `check_balance`
does not clear a live pending transfer, contradicting the claim that a
new unrelated command nulls `pending_transfer_to`. -/
theorem c7_counterexample :
    ((act none (2025, 9) "check_balance" slots0 stAlice).2).memory.pending_transfer_to
      = some "Alice" := by rfl

/-- C7 witness: an unrelated `help` dispatch keeps the pending state,
and a completed transfer clears it. -/
theorem c7_witness :
    ((act none (2025, 9) "help" slots0 stAlice).2).memory.pending_transfer_to =
      stAlice.memory.pending_transfer_to ∧
    ((act none (2025, 9) "transfer_money"
        { slots0 with amount := some 300, target := some "Alice" }
        stAlice).2).memory.pending_transfer_to = none :=
  ⟨c7_pending_lifecycle.1 none (2025, 9) "help" slots0 stAlice (by decide),
   c7_pending_lifecycle.2 none (2025, 9)
     { slots0 with amount := some 300, target := some "Alice" } stAlice 300 "Alice"
     rfl rfl⟩

/-! ## C10: the amount slot inherits `last_amount` -/

/-- C10: whenever `last_amount` is set, every slot record produced by
the resolver carries a non-null amount: the first extracted number if
one exists, else the inherited `last_amount`.  Consequently the
transfer pending-prompt path (target present, amount absent) is
reachable only with a null `last_amount` and no number in the text. -/
theorem c10_amount_inherits (u : String) (m : Memory) (a : Rat) (i : String) (s : Slots)
    (ha : m.last_amount = some a)
    (hr : (parse_intent_slots u m).1 = Except.ok (i, s)) :
    s.amount = some ((numsOf u).headD a) := by
  have hr' : parseCore u (truncMem m) = Except.ok (i, s) := hr
  unfold parseCore at hr'
  dsimp only at hr'
  split at hr'
  case isTrue hg =>
    have hs : s.amount = (numsOf u).head? := by
      have := (Except.ok.injEq _ _).mp hr'
      rw [Prod.mk.injEq] at this
      rw [← this.2]
    cases hn : numsOf u with
    | nil => rw [hn] at hg; simp at hg
    | cons x xs => rw [hn] at hs; simpa using hs
  case isFalse hg =>
    cases hc : classify (ulOf u) (!(numsOf u).isEmpty) (findMonth (ulOf u)) with
    | error e => rw [hc] at hr'; simp [Except.map] at hr'
    | ok intnt =>
      rw [hc] at hr'
      simp only [Except.map, Except.ok.injEq, Prod.mk.injEq] at hr'
      have hs : s = buildSlots intnt (numsOf u)
          (((numsOf u).filter (fun q => q.den == 1)).map Rat.num)
          (extractTarget (rmCurrency (ulOf u))) (findMonth (ulOf u))
          (categoriesList.find? (fun c => hasSub c.data (ulOf u)))
          (ulOf u) (rmCurrency (ulOf u)) (truncMem m) := hr'.2.symm
    
      rw [hs]
      unfold buildSlots
      cases hn : numsOf u with
      | nil => simp [ha]
      | cons x xs => simp

def m7 : Memory := { mem0 with last_amount := some 7 }

/-- C10 witness: with `last_amount = 7` and a numberless utterance, the
resolver fills the amount slot from memory. -/
theorem c10_witness :
    ({ n := some 3, amount := some 7, target := none, biller := none,
       month := none, category := none } : Slots).amount =
      some ((numsOf "hello").headD 7) :=
  c10_amount_inherits "hello" m7 7 "fallback"
    { n := some 3, amount := some 7, target := none, biller := none,
      month := none, category := none } rfl (by rfl)

/-! ## C1: the pending-transfer short-circuit -/

/-- C1 (amended): if at least one number is extracted and
`pending_transfer_to` holds a non-null, non-empty string `t`, the
resolver short-circuits to `transfer_money` with the first number as
amount and `t` as target, bypassing the intent cascade.  (The Python
guard tests truthiness, so the empty string does not trigger it.) -/
theorem c1_pending_shortcircuit (u : String) (m : Memory) (t : String) (a : Rat)
    (rest : List Rat) (hn : numsOf u = a :: rest)
    (hp : m.pending_transfer_to = some t) (ht : t ≠ "") :
    (parse_intent_slots u m).1 =
      Except.ok ("transfer_money",
        { n := none, amount := some a, target := some t, biller := none,
          month := none, category := none }) := by
  have hp' : (truncMem m).pending_transfer_to = some t := by simp [hp]
  have hE : t.isEmpty = false := by
    cases hb : t.isEmpty
    · rfl
    · exact absurd ((String.isEmpty_iff t).mp hb) ht
  show parseCore u (truncMem m) = _
  unfold parseCore
  dsimp only
  rw [hn, hp']
  simp [isTruthy, hE]

def mEmptyPending : Memory := { mem0 with pending_transfer_to := some "" }

/-- C1 counterexample: with the non-null pending string `""` and the
number-bearing utterance `balance 5`, the resolver does not return
`transfer_money`: the falsy pending value lets the cascade classify
`check_balance` instead. -/
theorem c1_counterexample :
    (parse_intent_slots "balance 5" mEmptyPending).1 =
      Except.ok ("check_balance",
        { n := some 3, amount := some 5, target := none, biller := none,
          month := none, category := none }) ∧
    ("check_balance" : String) ≠ "transfer_money" :=
  ⟨by rfl, by decide⟩

def mAlice : Memory := { mem0 with pending_transfer_to := some "Alice" }

/-- C1 witness: with pending recipient `Alice`, the keyword-bearing
utterance `balance 5` still resolves to the pending transfer. -/
theorem c1_witness :
    (parse_intent_slots "balance 5" mAlice).1 =
      Except.ok ("transfer_money",
        { n := none, amount := some 5, target := some "Alice", biller := none,
          month := none, category := none }) :=
  c1_pending_shortcircuit "balance 5" mAlice "Alice" 5 [] (by decide) rfl (by decide)

/-! ## C5 and C8: the intent cascade -/

theorem hasSub_head_mem {c : Char} {ps l : List Char}
    (h : hasSub (c :: ps) l = true) : c ∈ l := by
  induction l with
  | nil => simp [hasSub, isPfx] at h
  | cons x xs ih =>
    rw [hasSub, Bool.or_eq_true] at h
    rcases h with h | h
    · simp only [isPfx, Bool.and_eq_true, beq_iff_eq] at h
      simp [h.1]
    · exact List.mem_cons_of_mem _ (ih h)

theorem firstWord_none_hasSub_false {c : Char} {ps l : List Char}
    (hw : firstWord l = none) (hc : isPyWs c = false) :
    hasSub (c :: ps) l = false := by
  cases hs : hasSub (c :: ps) l
  · rfl
  · exfalso
    have hm : c ∈ l := hasSub_head_mem hs
    unfold firstWord at hw
    cases hd : l.dropWhile isPyWs with
    | cons y ys => rw [hd] at hw; simp at hw
    | nil =>
      have hall := List.dropWhile_eq_nil_iff.mp hd c hm
      rw [hc] at hall
      exact Bool.noConfusion hall

/-- The cascade rules checked before the `pay_bill` rule, all failing:
no help phrase, no `trace` rule, and none of the balance, fraud,
categorize or summary keywords nor a month name. -/
def earlierRulesMiss (ul : List Char) : Bool :=
  !(helpPhrases.contains ul) && !(ul == "trace".data) &&
  !(firstWord ul == some ("trace".data)) &&
  !(hasSub "balance".data ul) && !(hasSub "how much money".data ul) &&
  !(hasSub "how much do i have".data ul) &&
  !(hasSub "fraud".data ul) && !(hasSub "suspicious".data ul) &&
  !(hasSub "detect".data ul) &&
  !(hasSub "categorize".data ul) && !(hasSub "category".data ul) &&
  !(hasSub "spending".data ul) &&
  !(hasSub "summary".data ul) && !(hasSub "month".data ul) &&
  !(hasSub "spending in".data ul) && (findMonth ul).isNone

/-- The keywords of the rules checked after the `pay_bill` rule, all
absent: deposit, transfer and transaction-listing vocabulary. -/
def laterKeywordsMiss (ul : List Char) : Bool :=
  !(hasSub "pay".data ul) &&
  !(hasSub "deposit".data ul) && !(hasSub "add".data ul) &&
  !(hasSub "transfer".data ul) && !(hasSub "send".data ul) &&
  !(hasSub "give".data ul) &&
  !(hasSub "transaction".data ul) && !(hasSub "transactions".data ul) &&
  !(hasSub "last".data ul) && !(hasSub "recent".data ul) &&
  !(hasSub "spent".data ul) && !(ul == "show".data)

/-- When no earlier cascade rule fires, the classifier returns
`pay_bill` exactly when the word `pay` occurs: the source guard
`"pay" in ul and ("bill" in ul or "pay" in ul)` degenerates to
`"pay" in ul`. -/
theorem classify_pay_iff (ul : List Char) (b : Bool)
    (hmiss : earlierRulesMiss ul = true) :
    (classify ul b (findMonth ul) = Except.ok "pay_bill") ↔
      hasSub "pay".data ul = true := by
  simp only [earlierRulesMiss, Bool.and_eq_true, Bool.not_eq_true',
    Option.isNone_iff_eq_none, and_assoc] at hmiss
  obtain ⟨hHelp, hTrEq, hTrFw, hBal, hHmm, hHmd, hFraud, hSusp, hDet,
    hCatz, hCat, hSpend, hSum, hMon, hSpin, hMo⟩ := hmiss
  have hHelpM : ul ∉ helpPhrases := by simpa using hHelp
  cases hfw : firstWord ul with
  | none =>
    have hpf : hasSub "pay".data ul = false :=
      firstWord_none_hasSub_false hfw (by decide)
    rw [hpf]
    simp [classify, hfw, hHelpM, hHelp, hTrEq]
  | some w =>
    have hwne : (w == "trace".data) = false := by
      rw [hfw] at hTrFw; simpa using hTrFw
    rw [classify]
    rw [if_neg (show ¬helpPhrases.contains ul = true by simpa using hHelp),
      if_neg (show ¬(ul == "trace".data) = true by simp [hTrEq]), hfw]
    simp only [hwne, hBal, hHmm, hHmd, hFraud, hSusp,
      hDet, hCatz, hCat, hSpend, hSum, hMon, hSpin, hMo, Bool.or_false, Bool.false_or,
      Bool.or_self, Option.isSome_none, Bool.false_eq_true, if_false]
    cases hpf : hasSub "pay".data ul with
    | true => simp [hpf]
    | false =>
      simp only [hpf, Bool.false_and, Bool.false_or, Bool.or_false,
        Bool.false_eq_true, if_false]
      split_ifs <;> simp

/-- When no cascade rule at all fires and the utterance has a first
word, the classifier falls through to `fallback`. -/
theorem classify_fallback_of_miss (ul : List Char) (b : Bool) (w : List Char)
    (hfw : firstWord ul = some w)
    (hmiss : earlierRulesMiss ul = true) (hmiss2 : laterKeywordsMiss ul = true) :
    classify ul b (findMonth ul) = Except.ok "fallback" := by
  simp only [earlierRulesMiss, Bool.and_eq_true, Bool.not_eq_true',
    Option.isNone_iff_eq_none, and_assoc] at hmiss
  obtain ⟨hHelp, hTrEq, hTrFw, hBal, hHmm, hHmd, hFraud, hSusp, hDet,
    hCatz, hCat, hSpend, hSum, hMon, hSpin, hMo⟩ := hmiss
  simp only [laterKeywordsMiss, Bool.and_eq_true, Bool.not_eq_true', and_assoc] at hmiss2
  obtain ⟨hPay, hDep, hAdd, hTrf, hSend, hGive, hTxn, hTxns, hLast, hRec,
    hSpent, hShow⟩ := hmiss2
  have hwne : (w == "trace".data) = false := by
    rw [hfw] at hTrFw; simpa using hTrFw
  have hHelpM : ul ∉ helpPhrases := by simpa using hHelp
  rw [classify]
  rw [if_neg (show ¬helpPhrases.contains ul = true by simpa using hHelp),
    if_neg (show ¬(ul == "trace".data) = true by simp [hTrEq]), hfw]
  simp [hwne, hBal, hHmm, hHmd, hFraud, hSusp,
    hDet, hCatz, hCat, hSpend, hSum, hMon, hSpin, hMo, hPay, hDep, hAdd, hTrf,
    hSend, hGive, hTxn, hTxns, hLast, hRec, hSpent, hShow]

theorem exists_map_ok (r : Except String String) (g : String → Slots) (x : String) :
    (∃ s, Except.map (fun i => (i, g i)) r = Except.ok (x, s)) ↔ r = Except.ok x := by
  cases r <;> simp [Except.map]

/-- The resolver after the short-circuit test fails: classification
composed with slot building. -/
theorem parseCore_no_pending (u : String) (m : Memory)
    (hp : m.pending_transfer_to = none) :
    (parse_intent_slots u m).1 =
      Except.map
        (fun intent => (intent,
          buildSlots intent (numsOf u)
            (((numsOf u).filter (fun q => q.den == 1)).map Rat.num)
            (extractTarget (rmCurrency (ulOf u))) (findMonth (ulOf u))
            (categoriesList.find? (fun c => hasSub c.data (ulOf u)))
            (ulOf u) (rmCurrency (ulOf u)) (truncMem m)))
        (classify (ulOf u) (!(numsOf u).isEmpty) (findMonth (ulOf u))) := by
  show parseCore u (truncMem m) = _
  unfold parseCore
  dsimp only
  rw [truncMem_pending, hp]
  simp [isTruthy]

/-- C5 (amended): for every memory with no pending transfer and every
utterance missed by all earlier cascade rules, the resolver classifies
`pay_bill` exactly when the word `pay` occurs in the lowered text — the
co-occurrence of `bill` is not required, because the second conjunct of
the source guard is a tautology. -/
theorem c5_pay_iff (u : String) (m : Memory)
    (hp : m.pending_transfer_to = none)
    (hmiss : earlierRulesMiss (ulOf u) = true) :
    (∃ s, (parse_intent_slots u m).1 = Except.ok ("pay_bill", s)) ↔
      hasSub "pay".data (ulOf u) = true := by
  rw [parseCore_no_pending u m hp]
  exact Iff.trans (exists_map_ok _ _ "pay_bill") (classify_pay_iff (ulOf u) _ hmiss)

/-- C5 counterexample: `pay 1200 to electricity` contains `pay` but not
`bill`, yet the resolver classifies it `pay_bill`, refuting the claim
that `pay` and `bill` must both occur. -/
theorem c5_counterexample :
    (parse_intent_slots "pay 1200 to electricity" mem0).1 =
      Except.ok ("pay_bill",
        { n := some 3, amount := some 1200, target := some "electricity",
          biller := some "electricity", month := none, category := none }) ∧
    hasSub "bill".data (ulOf "pay 1200 to electricity") = false :=
  ⟨by rfl, by decide⟩

/-- C5 witness: a `pay` utterance without `bill` resolves to `pay_bill`
under the amended rule. -/
theorem c5_witness :
    ∃ s, (parse_intent_slots "pay 900 to water" mem0).1 =
      Except.ok ("pay_bill", s) :=
  (c5_pay_iff "pay 900 to water" mem0 rfl (by decide)).mpr (by decide)

/-- C8 (amended): an utterance with at least one whitespace-delimited
word, none of the cascade keywords and no month name resolves to
`fallback` when no transfer is pending; a whitespace-only utterance
instead raises `IndexError` at `ul.split()[0]`. -/
theorem c8_fallback (u : String) (m : Memory)
    (hp : m.pending_transfer_to = none)
    (hw : (firstWord (ulOf u)).isSome = true)
    (hmiss : earlierRulesMiss (ulOf u) = true)
    (hmiss2 : laterKeywordsMiss (ulOf u) = true) :
    ∃ s, (parse_intent_slots u m).1 = Except.ok ("fallback", s) := by
  rw [parseCore_no_pending u m hp]
  obtain ⟨w, hfw⟩ := Option.isSome_iff_exists.mp hw
  exact (exists_map_ok _ _ "fallback").mpr
    (classify_fallback_of_miss (ulOf u) _ w hfw hmiss hmiss2)

/-- C8 counterexample: the keywordless, monthless utterance `""` does
not resolve to `fallback` — the resolver raises `IndexError` instead. -/
theorem c8_counterexample :
    (parse_intent_slots "" mem0).1 = Except.error indexErrorMsg ∧
    ∀ s, (parse_intent_slots "" mem0).1 ≠ Except.ok ("fallback", s) := by
  refine ⟨by rfl, ?_⟩
  intro s h
  rw [show (parse_intent_slots "" mem0).1 = Except.error indexErrorMsg from rfl] at h
  exact Except.noConfusion h

/-- C8 witness: `hello there` has no keyword and no month and resolves
to `fallback`. -/
theorem c8_witness :
    ∃ s, (parse_intent_slots "hello there" mem0).1 = Except.ok ("fallback", s) :=
  c8_fallback "hello there" mem0 rfl (by decide) (by decide) (by decide)
